import Mathlib

/-!
# Verification of the AI-Chatbot rate-limiting and caching decision layer

Shallow embedding of the chat backend's core modules:

* `src/lib/ai/gemini.ts` — sliding-window rate limiter (`checkRateLimit`),
  normalized-key response cache, and the `generateResponse` orchestration
  (rate limit → cache lookup → gateway call → cache fill).
* `src/lib/gemini.ts` (second revision, `lib/ai/gemini.ts` header) — the
  fixed-window rate-limiter variant (`fwRateCheck` below).
* `src/app/api/chat/route.ts` — the `POST` handler: input validation,
  timeout race around `generateResponse`, persistence, and HTTP status
  mapping.

Modelling conventions:

* JavaScript `Map` objects are embedded as association lists
  `List (String × α)` with `mapGet` / `mapSet` / key-preserving `filter`
  mirroring `Map.get` / `Map.set` / delete-during-iteration.
* `Date.now()` is a single `now : Int` parameter per request (the handful of
  reads within one request are treated as one instant).
* The external Gemini call is an oracle input `GatewayOutcome`; whether it was
  actually consulted is recorded in the `gatewayCalled` flag of the trace.
* String normalization (`trim().toLowerCase()`) is embedded over the ASCII
  fragment (the characters the code's own tests and messages use).
* The markdown post-processing `formatResponse` is an arbitrary parameter
  `fmt : String → String`: no property below depends on its internals, and
  every theorem is proved for all `fmt`.
-/

/-! ## String helpers (JS `includes`, `trim`, `toLowerCase`) -/

/-- Does the pattern occur at the very start of the character list? -/
def segAt : List Char → List Char → Bool
  | [], _ => true
  | _ :: _, [] => false
  | p :: ps, c :: cs => p == c && segAt ps cs

/-- Does the pattern occur anywhere in the character list? -/
def hasSeg (pat : List Char) : List Char → Bool
  | [] => pat.isEmpty
  | c :: cs => segAt pat (c :: cs) || hasSeg pat cs

/-- JS `s.includes(pat)`. -/
def strIncludes (s pat : String) : Bool := hasSeg pat.data s.data

/-- ASCII whitespace recognised by the embedding of JS `trim()`. -/
def isWS (c : Char) : Bool := c == ' ' || c == '\t' || c == '\n' || c == '\r'

/-- Drop leading and trailing whitespace from a character list. -/
def trimChars (l : List Char) : List Char :=
  ((l.dropWhile isWS).reverse.dropWhile isWS).reverse

/-- JS `c.toLowerCase()` on the ASCII fragment. -/
def jsToLower (c : Char) : Char :=
  if 'A' ≤ c ∧ c ≤ 'Z' then Char.ofNat (c.toNat + 32) else c

/-- The cache-key normalization `message.trim().toLowerCase()` from
`generateResponse` in `src/lib/ai/gemini.ts`. -/
def normKey (s : String) : String :=
  String.mk ((trimChars s.data).map jsToLower)

/-! ## JS `Map` as an association list -/

/-- `Map.get`: first binding of the key, if any. -/
def mapGet : List (String × α) → String → Option α
  | [], _ => none
  | (k', v) :: rest, k => if k' = k then some v else mapGet rest k

/-- `Map.set`: overwrite the binding in place, or append a new one. -/
def mapSet : List (String × α) → String → α → List (String × α)
  | [], k, v => [(k, v)]
  | (k', v') :: rest, k, v =>
    if k' = k then (k, v) :: rest else (k', v') :: mapSet rest k v

/-- Keys of an association list. -/
def keysOf (c : List (String × α)) : List String := c.map Prod.fst

theorem mapGet_mapSet_self (m : List (String × α)) (k : String) (v : α) :
    mapGet (mapSet m k v) k = some v := by
  induction m with
  | nil => simp [mapSet, mapGet]
  | cons hd tl ih =>
    by_cases h : hd.1 = k
    · simp [mapSet, h, mapGet]
    · simpa [mapSet, h, mapGet] using ih

theorem mapSet_of_not_mem (m : List (String × α)) (k : String) (v : α)
    (h : k ∉ keysOf m) : mapSet m k v = m ++ [(k, v)] := by
  induction m with
  | nil => simp [mapSet]
  | cons hd tl ih =>
    simp only [keysOf, List.map_cons, List.mem_cons] at h
    push_neg at h
    simp only [mapSet]
    rw [if_neg (fun he => h.1 he.symm)]
    rw [ih (by simpa [keysOf] using h.2)]
    simp

theorem mapGet_filter (m : List (String × α)) (k : String) (v : α)
    (p : String × α → Bool) (hget : mapGet m k = some v)
    (hp : p (k, v) = true) : mapGet (m.filter p) k = some v := by
  induction m with
  | nil => simp [mapGet] at hget
  | cons hd tl ih =>
    by_cases h : hd.1 = k
    · simp only [mapGet, if_pos h] at hget
      have hhd : hd = (k, v) := by
        cases hd; cases hget; cases h; rfl
      subst hhd
      simp [List.filter, hp, mapGet]
    · simp only [mapGet, if_neg h] at hget
      by_cases hph : p hd = true
      · simp [List.filter, hph, mapGet, h, ih hget]
      · simp only [List.filter, Bool.not_eq_true] at hph ⊢
        rw [hph]
        exact ih hget

/-- If every element satisfies the predicate, `filter` is the identity. -/
theorem filter_id_of_all (l : List α) (p : α → Bool)
    (h : ∀ a ∈ l, p a = true) : l.filter p = l := by
  induction l with
  | nil => rfl
  | cons hd tl ih =>
    simp [List.filter, h hd (by simp), ih (fun a ha => h a (by simp [ha]))]

/-! ## Sliding-window rate limiter (`src/lib/ai/gemini.ts`, lines 70–84) -/

/-- `RATE_LIMIT = 10` requests per minute. -/
def RATE_LIMIT : Nat := 10

/-- Per-client recorded request timestamps (`rateLimitMap`). -/
abbrev RLMap := List (String × List Int)

/-- `checkRateLimit(ip)`: drop timestamps older than `now - 60000`; deny when
ten or more remain, otherwise record `now` and allow.  Returns the admission
decision together with the updated map (unchanged on denial). -/
def checkRateLimit (ip : String) (now : Int) (m : RLMap) : Bool × RLMap :=
  let windowStart := now - 60000
  let requestTimestamps := (mapGet m ip).getD []
  let recentRequests := requestTimestamps.filter (fun t => decide (windowStart < t))
  if RATE_LIMIT ≤ recentRequests.length then
    (false, m)
  else
    (true, mapSet m ip (recentRequests ++ [now]))

/-- A denied call to `checkRateLimit` leaves the map untouched. -/
theorem checkRateLimit_denied (ip : String) (now : Int) (m : RLMap)
    (h : (checkRateLimit ip now m).fst = false) :
    (checkRateLimit ip now m).snd = m := by
  by_cases hc : RATE_LIMIT ≤
      (((mapGet m ip).getD []).filter (fun t => decide (now - 60000 < t))).length
  · simp [checkRateLimit, hc]
  · simp [checkRateLimit, hc] at h

/-- A sequence of calls to the rate limiter for one client at the given times,
returning the decisions in order together with the final map. -/
def runCalls (ip : String) : List Int → RLMap → List Bool × RLMap
  | [], m => ([], m)
  | t :: ts, m =>
    let r := checkRateLimit ip t m
    let rest := runCalls ip ts r.snd
    (r.fst :: rest.fst, rest.snd)

example : (checkRateLimit "c" 0 []).fst = true := by decide
example : (checkRateLimit "c" 0 [("c", List.replicate 10 0)]).fst = false := by decide

/-- Invariant run of the sliding-window limiter: starting from a map whose
stored timestamps for `ip` are `prev` (all still inside the window of every
upcoming call), the limiter allows exactly the first `10 - prev.length` calls
and denies the rest. -/
theorem runCalls_window (ip : String) :
    ∀ (ts : List Int) (m : RLMap) (prev : List Int),
      (mapGet m ip).getD [] = prev →
      prev.length ≤ 10 →
      (∀ a ∈ ts, ∀ b ∈ prev, a - b < 60000) →
      (∀ a ∈ ts, ∀ b ∈ ts, a - b < 60000) →
      (runCalls ip ts m).fst
        = List.replicate (min (10 - prev.length) ts.length) true
          ++ List.replicate (ts.length - (10 - prev.length)) false := by
  intro ts
  induction ts with
  | nil => intro m prev _ _ _ _; simp [runCalls]
  | cons t ts ih =>
    intro m prev hprev hlen hfresh hts
    have hfilter : prev.filter (fun b => decide (t - 60000 < b)) = prev := by
      apply filter_id_of_all
      intro b hb
      have := hfresh t (by simp) b hb
      simp only [decide_eq_true_eq]
      omega
    rcases Nat.lt_or_ge prev.length 10 with hlt | hge
    · have hnot : ¬ RATE_LIMIT ≤ prev.length := by
        simp only [RATE_LIMIT]; omega
      have hallow : checkRateLimit ip t m = (true, mapSet m ip (prev ++ [t])) := by
        simp [checkRateLimit, hprev, hfilter, hnot]
      have hstep : (runCalls ip (t :: ts) m).fst
          = true :: (runCalls ip ts (mapSet m ip (prev ++ [t]))).fst := by
        simp [runCalls, hallow]
      have hprev2 : (mapGet (mapSet m ip (prev ++ [t])) ip).getD [] = prev ++ [t] := by
        rw [mapGet_mapSet_self]; rfl
      have hlen2 : (prev ++ [t]).length ≤ 10 := by
        simp only [List.length_append, List.length_cons, List.length_nil]
        omega
      have hfresh2 : ∀ a ∈ ts, ∀ b ∈ prev ++ [t], a - b < 60000 := by
        intro a ha b hb
        rcases List.mem_append.mp hb with hb | hb
        · exact hfresh a (by simp [ha]) b hb
        · have hbt : b = t := by simpa using hb
          rw [hbt]
          exact hts a (by simp [ha]) t (by simp)
      have hts2 : ∀ a ∈ ts, ∀ b ∈ ts, a - b < 60000 := by
        intro a ha b hb
        exact hts a (by simp [ha]) b (by simp [hb])
      rw [hstep, ih (mapSet m ip (prev ++ [t])) (prev ++ [t]) hprev2 hlen2 hfresh2 hts2]
      have h1 : min (10 - prev.length) (ts.length + 1)
          = min (10 - (prev ++ [t]).length) ts.length + 1 := by
        simp only [List.length_append, List.length_cons, List.length_nil]
        omega
      have h2 : ts.length + 1 - (10 - prev.length)
          = ts.length - (10 - (prev ++ [t]).length) := by
        simp only [List.length_append, List.length_cons, List.length_nil]
        omega
      simp only [List.length_cons, h1, h2, List.replicate_succ, List.cons_append]
    · have hyes : RATE_LIMIT ≤ prev.length := by
        simp only [RATE_LIMIT]; omega
      have hdenied : checkRateLimit ip t m = (false, m) := by
        simp [checkRateLimit, hprev, hfilter, hyes]
      have hstep : (runCalls ip (t :: ts) m).fst = false :: (runCalls ip ts m).fst := by
        simp [runCalls, hdenied]
      have hfresh2 : ∀ a ∈ ts, ∀ b ∈ prev, a - b < 60000 := by
        intro a ha b hb
        exact hfresh a (by simp [ha]) b hb
      have hts2 : ∀ a ∈ ts, ∀ b ∈ ts, a - b < 60000 := by
        intro a ha b hb
        exact hts a (by simp [ha]) b (by simp [hb])
      rw [hstep, ih m prev hprev hlen hfresh2 hts2]
      have hL : prev.length = 10 := by omega
      rw [hL]
      simp [List.replicate_succ]

/-- C1: under the sliding-window policy with window 60000 ms and limit 10, a
client issuing 11 calls within one window is allowed on the first 10 calls to
`checkRateLimit` and denied on the 11th. -/
theorem checkRateLimit_allows_ten_then_denies (ip : String) (ts : List Int)
    (hts : ∀ a ∈ ts, ∀ b ∈ ts, a - b < 60000) (hlen : ts.length = 11) :
    (runCalls ip ts []).fst = List.replicate 10 true ++ [false] := by
  have h := runCalls_window ip ts [] [] rfl (by simp) (by simp) hts
  rw [hlen] at h
  simpa using h

/-- Witness for C1 at 11 concrete calls in one window. -/
theorem checkRateLimit_allows_ten_then_denies_witness :
    (runCalls "1.2.3.4" [0, 1, 2, 3, 4, 5, 6, 7, 8, 9, 10] []).fst
      = List.replicate 10 true ++ [false] :=
  checkRateLimit_allows_ten_then_denies "1.2.3.4"
    [0, 1, 2, 3, 4, 5, 6, 7, 8, 9, 10] (by decide) (by decide)

/-! ## Response cache (`src/lib/ai/gemini.ts`, lines 3–5 and 97–178) -/

/-- `CACHE_TTL = 1000 * 60 * 5` ms (5 minutes). -/
def CACHE_TTL : Int := 1000 * 60 * 5

/-- One entry of `responseCache`: the stored text and its store time. -/
structure CacheEntry where
  response : String
  timestamp : Int
  deriving DecidableEq

/-- The module-level `responseCache` map. -/
abbrev CacheMap := List (String × CacheEntry)

/-- Lines 97–102 of `generateResponse`: normalize the message, read
`responseCache`, and return the stored text only when the entry is strictly
younger than `CACHE_TTL`. -/
def cacheLookup (c : CacheMap) (message : String) (now : Int) : Option String :=
  let cacheKey := normKey message
  match mapGet c cacheKey with
  | some cached => if now - cached.timestamp < CACHE_TTL then some cached.response else none
  | none => none

/-- Lines 164–178 of `generateResponse`: store the formatted response under the
normalized key, then — only when the map has grown past 1000 entries — sweep
the entries older than `CACHE_TTL`. -/
def cacheStore (now : Int) (cacheKey response : String) (c : CacheMap) : CacheMap :=
  let c1 := mapSet c cacheKey { response := response, timestamp := now }
  if 1000 < c1.length then
    c1.filter (fun kv => decide (now - kv.2.timestamp ≤ CACHE_TTL))
  else c1

/-- C4: when the cache holds an entry for the normalized message, a lookup at
or after `timestamp + CACHE_TTL` misses, and a lookup strictly before that
instant hits with the stored text. -/
theorem cacheLookup_expiry (c : CacheMap) (message : String) (now : Int)
    (e : CacheEntry) (hget : mapGet c (normKey message) = some e) :
    (e.timestamp + CACHE_TTL ≤ now → cacheLookup c message now = none)
    ∧ (now < e.timestamp + CACHE_TTL → cacheLookup c message now = some e.response) := by
  constructor
  · intro hexp
    simp only [cacheLookup, hget]
    rw [if_neg (by omega)]
  · intro hfresh
    simp only [cacheLookup, hget]
    rw [if_pos (by omega)]

/-- Witness for C4: a lookup exactly at the expiry instant of a concrete entry
is a miss. -/
theorem cacheLookup_expiry_witness :
    cacheLookup [("hello", { response := "hi there.", timestamp := 0 })] "hello" 300000
      = none :=
  (cacheLookup_expiry [("hello", { response := "hi there.", timestamp := 0 })]
    "hello" 300000 { response := "hi there.", timestamp := 0 } (by decide)).1 (by decide)

/-! ## Fixed-window rate limiter (`src/lib/gemini.ts`, second revision,
lines 181–199: the inline block of its `generateResponse`) -/

/-- One entry of that revision's `rateLimitMap`. -/
structure FWEntry where
  count : Nat
  resetTime : Int
  deriving DecidableEq

/-- The fixed-window `rateLimitMap`. -/
abbrev FWMap := List (String × FWEntry)

/-- The fixed-window admission step: reset the counter when the window has
passed, deny at `count >= 10` (the `throw`), otherwise increment.  Returns the
decision together with the updated map (unchanged on denial). -/
def fwRateCheck (ip : String) (now : Int) (m : FWMap) : Bool × FWMap :=
  match mapGet m ip with
  | some rl =>
    if rl.resetTime < now then
      (true, mapSet m ip { count := 1, resetTime := now + 60000 })
    else if 10 ≤ rl.count then
      (false, m)
    else
      (true, mapSet m ip { count := rl.count + 1, resetTime := rl.resetTime })
  | none => (true, mapSet m ip { count := 1, resetTime := now + 60000 })

/-- A denied fixed-window step leaves the map untouched. -/
theorem fwRateCheck_denied (ip : String) (now : Int) (m : FWMap)
    (h : (fwRateCheck ip now m).fst = false) :
    (fwRateCheck ip now m).snd = m := by
  rcases hm : mapGet m ip with _ | rl
  · simp [fwRateCheck, hm] at h
  · simp only [fwRateCheck, hm] at h ⊢
    by_cases h1 : rl.resetTime < now
    · rw [if_pos h1] at h
      simp at h
    · rw [if_neg h1] at h ⊢
      by_cases h2 : 10 ≤ rl.count
      · rw [if_pos h2]
      · rw [if_neg h2] at h
        simp at h

/-- C9: a request denied by the rate limiter consumes no quota — the
sliding-window variant records no new timestamp and the fixed-window variant
does not increment its counter, so the stored state is unchanged. -/
theorem denied_request_leaves_state_unchanged (ip : String) (now : Int)
    (m : RLMap) (fm : FWMap) :
    ((checkRateLimit ip now m).fst = false → (checkRateLimit ip now m).snd = m)
    ∧ ((fwRateCheck ip now fm).fst = false → (fwRateCheck ip now fm).snd = fm) :=
  ⟨checkRateLimit_denied ip now m, fwRateCheck_denied ip now fm⟩

/-- Witness for C9: concrete saturated states where both variants deny and the
maps come back unchanged. -/
theorem denied_request_leaves_state_unchanged_witness :
    (checkRateLimit "c" 5 [("c", List.replicate 10 0)]).snd
        = [("c", List.replicate 10 0)]
    ∧ (fwRateCheck "c" 5 [("c", { count := 10, resetTime := 100 })]).snd
        = [("c", { count := 10, resetTime := 100 })] :=
  ⟨(denied_request_leaves_state_unchanged "c" 5 [("c", List.replicate 10 0)]
      [("c", { count := 10, resetTime := 100 })]).1 (by decide),
   (denied_request_leaves_state_unchanged "c" 5 [("c", List.replicate 10 0)]
      [("c", { count := 10, resetTime := 100 })]).2 (by decide)⟩

/-! ## `generateResponse` (`src/lib/ai/gemini.ts`, lines 58–201) -/

/-- The canned `DUMMY_RESPONSES` returned when the Gemini client is missing. -/
def DUMMY_RESPONSES : List String :=
  ["I\x27m having trouble connecting to the AI service. Please check your API key and try again.",
   "I\x27m currently unable to process your request. Please try again later.",
   "The AI service is temporarily unavailable. Please check your internet connection and try again.",
   "I\x27m sorry, but I can\x27t process your request right now. Please try again in a few moments."]

/-- `getDummyResponse()`: one of the four canned strings, the random draw
modelled by an index. -/
def getDummyResponse (rand : Nat) : String := DUMMY_RESPONSES.getD (rand % 4) ""

/-- Oracle for the external Gemini call: the text it would deliver, or the
error it would raise. -/
inductive GatewayOutcome where
  | ok (text : String)
  | err (msg : String)
  deriving DecidableEq

/-- The module-level mutable state of `src/lib/ai/gemini.ts`: the rate-limit
map and the response cache. -/
structure GenState where
  rateMap : RLMap
  cache : CacheMap
  deriving DecidableEq

/-- How `generateResponse` finishes: resolving with text, or rejecting. -/
inductive GenOutcome where
  | returned (text : String)
  | thrown (msg : String)
  deriving DecidableEq

/-- One evaluation of `generateResponse`: its outcome, the state it leaves
behind, and whether the Gemini gateway / the response cache were consulted. -/
structure GenTrace where
  outcome : GenOutcome
  state : GenState
  gatewayCalled : Bool
  cacheRead : Bool
  deriving DecidableEq

/-- The `catch` block of `generateResponse` (lines 181–199): map the raw error
message to the user-facing one. -/
def classifyGenError (m : String) : String :=
  if strIncludes m "API key not valid" = true then
    "Invalid API key. Please check your Gemini API key."
  else if strIncludes m "quota" = true then
    "API quota exceeded. Please check your Gemini API usage limits."
  else
    "Failed to generate response. Please try again later."

/-- Lines 97–180 of `generateResponse`: everything after the rate-limit gate —
cache lookup, uninitialized-client fallback, gateway call, empty-text check,
formatting, and cache fill. -/
def genAfterRate (fmt : String → String) (genAIOk : Bool) (rand : Nat)
    (gw : GatewayOutcome) (message : String) (now : Int) (st : GenState) : GenTrace :=
  match cacheLookup st.cache message now with
  | some r =>
    { outcome := .returned r, state := st, gatewayCalled := false, cacheRead := true }
  | none =>
    if genAIOk = false then
      { outcome := .returned (getDummyResponse rand), state := st,
        gatewayCalled := false, cacheRead := true }
    else
      match gw with
      | .ok text =>
        if text = "" then
          { outcome := .thrown (classifyGenError "Received empty response from AI model"),
            state := st, gatewayCalled := true, cacheRead := true }
        else
          { outcome := .returned (fmt text),
            state := { st with cache := cacheStore now (normKey message) (fmt text) st.cache },
            gatewayCalled := true, cacheRead := true }
      | .err m =>
        { outcome := .thrown (classifyGenError m), state := st,
          gatewayCalled := true, cacheRead := true }

/-- `generateResponse(message, ip?)`: build-phase short-circuit, then the
rate-limit gate (only when `ip` is a non-empty string), then `genAfterRate`. -/
def generateResponse (fmt : String → String) (isBuild genAIOk : Bool) (rand : Nat)
    (gw : GatewayOutcome) (message : String) (ip : Option String) (now : Int)
    (st : GenState) : GenTrace :=
  if isBuild = true then
    { outcome := .returned (getDummyResponse rand), state := st,
      gatewayCalled := false, cacheRead := false }
  else
    match ip with
    | some i =>
      if i = "" then genAfterRate fmt genAIOk rand gw message now st
      else
        if (checkRateLimit i now st.rateMap).fst = true then
          genAfterRate fmt genAIOk rand gw message now
            { st with rateMap := (checkRateLimit i now st.rateMap).snd }
        else
          { outcome := .thrown "Rate limit exceeded. Please try again later.",
            state := { st with rateMap := (checkRateLimit i now st.rateMap).snd },
            gatewayCalled := false, cacheRead := false }
    | none => genAfterRate fmt genAIOk rand gw message now st

/-- The rate-limit gate of `generateResponse` viewed as a predicate: the call
proceeds past the `if (ip && !checkRateLimit(ip))` guard. -/
def ratePass (ip : Option String) (now : Int) (m : RLMap) : Bool :=
  match ip with
  | none => true
  | some i => if i = "" then true else (checkRateLimit i now m).fst

theorem genAfterRate_hit (fmt : String → String) (genAIOk : Bool) (rand : Nat)
    (gw : GatewayOutcome) (message : String) (now : Int) (st : GenState) (r : String)
    (hhit : cacheLookup st.cache message now = some r) :
    genAfterRate fmt genAIOk rand gw message now st
      = { outcome := .returned r, state := st, gatewayCalled := false, cacheRead := true } := by
  unfold genAfterRate
  rw [hhit]

theorem generateResponse_rate_branch (fmt : String → String) (genAIOk : Bool)
    (rand : Nat) (gw : GatewayOutcome) (message i : String) (now : Int)
    (st : GenState) (hi : ¬ i = "") :
    generateResponse fmt false genAIOk rand gw message (some i) now st
      = if (checkRateLimit i now st.rateMap).fst = true then
          genAfterRate fmt genAIOk rand gw message now
            { st with rateMap := (checkRateLimit i now st.rateMap).snd }
        else
          { outcome := .thrown "Rate limit exceeded. Please try again later.",
            state := { st with rateMap := (checkRateLimit i now st.rateMap).snd },
            gatewayCalled := false, cacheRead := false } := by
  have e : generateResponse fmt false genAIOk rand gw message (some i) now st
      = if i = "" then genAfterRate fmt genAIOk rand gw message now st
        else if (checkRateLimit i now st.rateMap).fst = true then
          genAfterRate fmt genAIOk rand gw message now
            { st with rateMap := (checkRateLimit i now st.rateMap).snd }
        else
          { outcome := .thrown "Rate limit exceeded. Please try again later.",
            state := { st with rateMap := (checkRateLimit i now st.rateMap).snd },
            gatewayCalled := false, cacheRead := false } := rfl
  rw [e, if_neg hi]

theorem gen_cache_hit (fmt : String → String) (genAIOk : Bool) (rand : Nat)
    (gw : GatewayOutcome) (message : String) (ip : Option String) (now : Int)
    (st : GenState) (r : String)
    (hrl : ratePass ip now st.rateMap = true)
    (hhit : cacheLookup st.cache message now = some r) :
    (generateResponse fmt false genAIOk rand gw message ip now st).outcome
        = GenOutcome.returned r
    ∧ (generateResponse fmt false genAIOk rand gw message ip now st).gatewayCalled
        = false := by
  cases ip with
  | none =>
    rw [show generateResponse fmt false genAIOk rand gw message none now st
          = genAfterRate fmt genAIOk rand gw message now st from rfl,
      genAfterRate_hit fmt genAIOk rand gw message now st r hhit]
    exact ⟨rfl, rfl⟩
  | some i =>
    by_cases hi : i = ""
    · subst hi
      rw [show generateResponse fmt false genAIOk rand gw message (some "") now st
            = genAfterRate fmt genAIOk rand gw message now st from rfl,
        genAfterRate_hit fmt genAIOk rand gw message now st r hhit]
      exact ⟨rfl, rfl⟩
    · have hallow : (checkRateLimit i now st.rateMap).fst = true := by
        simpa [ratePass, hi] using hrl
      rw [generateResponse_rate_branch fmt genAIOk rand gw message i now st hi,
        if_pos hallow,
        genAfterRate_hit fmt genAIOk rand gw message now
          { st with rateMap := (checkRateLimit i now st.rateMap).snd } r hhit]
      exact ⟨rfl, rfl⟩

/-- C10: with a fresh cache entry for the normalized message and the rate gate
passed, `generateResponse` returns the cached value without calling the
gateway — for every state of the Gemini client, in particular an
uninitialized one (`genAIOk = false`). -/
theorem cache_hit_bypasses_uninitialized_client (fmt : String → String)
    (genAIOk : Bool) (rand : Nat) (gw : GatewayOutcome) (message : String)
    (ip : Option String) (now : Int) (st : GenState) (r : String)
    (hrl : ratePass ip now st.rateMap = true)
    (hhit : cacheLookup st.cache message now = some r) :
    (generateResponse fmt false genAIOk rand gw message ip now st).outcome
        = GenOutcome.returned r
    ∧ (generateResponse fmt false genAIOk rand gw message ip now st).gatewayCalled
        = false :=
  gen_cache_hit fmt genAIOk rand gw message ip now st r hrl hhit

/-- Witness for C10: concrete fresh cache entry, no API key
(`genAIOk = false`); the cached text comes back, not a dummy response. -/
theorem cache_hit_bypasses_uninitialized_client_witness :
    (generateResponse (fun s => s) false false 0 (GatewayOutcome.err "x") "Hello" none 10
        { rateMap := [], cache := [("hello", { response := "cached answer.", timestamp := 0 })] }).outcome
      = GenOutcome.returned "cached answer."
    ∧ (generateResponse (fun s => s) false false 0 (GatewayOutcome.err "x") "Hello" none 10
        { rateMap := [], cache := [("hello", { response := "cached answer.", timestamp := 0 })] }).gatewayCalled
      = false :=
  cache_hit_bypasses_uninitialized_client (fun s => s) false 0 (GatewayOutcome.err "x")
    "Hello" none 10
    { rateMap := [], cache := [("hello", { response := "cached answer.", timestamp := 0 })] }
    "cached answer." (by decide) (by decide)

/-- C3: a client already at its rate limit gets the rate-limit rejection from
`generateResponse` before the response cache is ever read — for every cache
content, in particular one holding a fresh entry for the message — and the
whole state is left unchanged. -/
theorem rate_limit_precedes_cache_lookup (fmt : String → String) (genAIOk : Bool)
    (rand : Nat) (gw : GatewayOutcome) (message i : String) (now : Int)
    (st : GenState) (hi : ¬ i = "")
    (hd : (checkRateLimit i now st.rateMap).fst = false) :
    (generateResponse fmt false genAIOk rand gw message (some i) now st).outcome
        = GenOutcome.thrown "Rate limit exceeded. Please try again later."
    ∧ (generateResponse fmt false genAIOk rand gw message (some i) now st).cacheRead
        = false
    ∧ (generateResponse fmt false genAIOk rand gw message (some i) now st).gatewayCalled
        = false
    ∧ (generateResponse fmt false genAIOk rand gw message (some i) now st).state = st := by
  rw [generateResponse_rate_branch fmt genAIOk rand gw message i now st hi,
    if_neg (by simp [hd])]
  refine ⟨rfl, rfl, rfl, ?_⟩
  rw [checkRateLimit_denied i now st.rateMap hd]

/-- Witness for C3: a saturated client with a guaranteed-fresh cache entry for
the message still gets the rate-limit error, with nothing read or changed. -/
theorem rate_limit_precedes_cache_lookup_witness :
    (generateResponse (fun s => s) false true 0 (GatewayOutcome.ok "four.") "Hi" (some "9.9.9.9") 5
        { rateMap := [("9.9.9.9", List.replicate 10 0)],
          cache := [("hi", { response := "fresh cached.", timestamp := 5 })] }).outcome
      = GenOutcome.thrown "Rate limit exceeded. Please try again later."
    ∧ (generateResponse (fun s => s) false true 0 (GatewayOutcome.ok "four.") "Hi" (some "9.9.9.9") 5
        { rateMap := [("9.9.9.9", List.replicate 10 0)],
          cache := [("hi", { response := "fresh cached.", timestamp := 5 })] }).cacheRead
      = false
    ∧ (generateResponse (fun s => s) false true 0 (GatewayOutcome.ok "four.") "Hi" (some "9.9.9.9") 5
        { rateMap := [("9.9.9.9", List.replicate 10 0)],
          cache := [("hi", { response := "fresh cached.", timestamp := 5 })] }).gatewayCalled
      = false
    ∧ (generateResponse (fun s => s) false true 0 (GatewayOutcome.ok "four.") "Hi" (some "9.9.9.9") 5
        { rateMap := [("9.9.9.9", List.replicate 10 0)],
          cache := [("hi", { response := "fresh cached.", timestamp := 5 })] }).state
      = { rateMap := [("9.9.9.9", List.replicate 10 0)],
          cache := [("hi", { response := "fresh cached.", timestamp := 5 })] } :=
  rate_limit_precedes_cache_lookup (fun s => s) true 0 (GatewayOutcome.ok "four.")
    "Hi" "9.9.9.9" 5
    { rateMap := [("9.9.9.9", List.replicate 10 0)],
      cache := [("hi", { response := "fresh cached.", timestamp := 5 })] }
    (by decide) (by decide)

/-- The entry written by `cacheStore` is immediately retrievable: it survives
the opportunistic sweep because it is brand new. -/
theorem mapGet_cacheStore_self (now : Int) (k v : String) (c : CacheMap) :
    mapGet (cacheStore now k v c) k = some { response := v, timestamp := now } := by
  simp only [cacheStore]
  by_cases h : 1000 < (mapSet c k { response := v, timestamp := now }).length
  · rw [if_pos h]
    exact mapGet_filter _ _ _ _ (mapGet_mapSet_self _ _ _)
      (by simp only [decide_eq_true_eq, CACHE_TTL]; omega)
  · rw [if_neg h]
    exact mapGet_mapSet_self _ _ _

theorem genAfterRate_success (fmt : String → String) (rand : Nat) (t : String)
    (message : String) (now : Int) (st : GenState)
    (hmiss : cacheLookup st.cache message now = none) (ht : ¬ t = "") :
    genAfterRate fmt true rand (GatewayOutcome.ok t) message now st
      = { outcome := .returned (fmt t),
          state := { st with cache := cacheStore now (normKey message) (fmt t) st.cache },
          gatewayCalled := true, cacheRead := true } := by
  unfold genAfterRate
  rw [hmiss]
  rw [show (match GatewayOutcome.ok t with
      | GatewayOutcome.ok text =>
        if text = "" then
          { outcome := GenOutcome.thrown (classifyGenError "Received empty response from AI model"),
            state := st, gatewayCalled := true, cacheRead := true }
        else
          { outcome := GenOutcome.returned (fmt text),
            state := { st with cache := cacheStore now (normKey message) (fmt text) st.cache },
            gatewayCalled := true, cacheRead := true }
      | GatewayOutcome.err m =>
        { outcome := GenOutcome.thrown (classifyGenError m), state := st,
          gatewayCalled := true, cacheRead := true } : GenTrace)
      = if t = "" then
          { outcome := GenOutcome.thrown (classifyGenError "Received empty response from AI model"),
            state := st, gatewayCalled := true, cacheRead := true }
        else
          { outcome := GenOutcome.returned (fmt t),
            state := { st with cache := cacheStore now (normKey message) (fmt t) st.cache },
            gatewayCalled := true, cacheRead := true } from rfl]
  rw [if_neg ht]
  rfl

theorem gen_success_trace (fmt : String → String) (rand : Nat) (t : String)
    (message : String) (ip : Option String) (now : Int) (st : GenState)
    (hrl : ratePass ip now st.rateMap = true)
    (hmiss : cacheLookup st.cache message now = none) (ht : ¬ t = "") :
    (generateResponse fmt false true rand (GatewayOutcome.ok t) message ip now st).outcome
        = GenOutcome.returned (fmt t)
    ∧ (generateResponse fmt false true rand (GatewayOutcome.ok t) message ip now st).state.cache
        = cacheStore now (normKey message) (fmt t) st.cache := by
  cases ip with
  | none =>
    rw [show generateResponse fmt false true rand (GatewayOutcome.ok t) message none now st
          = genAfterRate fmt true rand (GatewayOutcome.ok t) message now st from rfl,
      genAfterRate_success fmt rand t message now st hmiss ht]
    exact ⟨rfl, rfl⟩
  | some i =>
    by_cases hi : i = ""
    · subst hi
      rw [show generateResponse fmt false true rand (GatewayOutcome.ok t) message (some "") now st
            = genAfterRate fmt true rand (GatewayOutcome.ok t) message now st from rfl,
        genAfterRate_success fmt rand t message now st hmiss ht]
      exact ⟨rfl, rfl⟩
    · have hallow : (checkRateLimit i now st.rateMap).fst = true := by
        simpa [ratePass, hi] using hrl
      rw [generateResponse_rate_branch fmt true rand (GatewayOutcome.ok t) message i now st hi,
        if_pos hallow,
        genAfterRate_success fmt rand t message now
          { st with rateMap := (checkRateLimit i now st.rateMap).snd } hmiss ht]
      exact ⟨rfl, rfl⟩

/-- C5: two messages with the same trimmed, lower-cased form share one cache
key, so after the first completes successfully, a request with the second text
within the cache TTL returns the identical value with the gateway never
consulted on the second call (for every second-call gateway oracle `gw2`). -/
theorem normalized_messages_share_cache_entry (fmt : String → String)
    (rand1 rand2 : Nat) (genAIOk2 : Bool) (t : String) (gw2 : GatewayOutcome)
    (s1 s2 : String) (ip1 ip2 : Option String) (now1 now2 : Int) (st : GenState)
    (hnorm : normKey s1 = normKey s2)
    (hrl1 : ratePass ip1 now1 st.rateMap = true)
    (hmiss : cacheLookup st.cache s1 now1 = none)
    (ht : ¬ t = "")
    (hrl2 : ratePass ip2 now2
        (generateResponse fmt false true rand1 (GatewayOutcome.ok t) s1 ip1 now1 st).state.rateMap
      = true)
    (hfresh : now2 - now1 < CACHE_TTL) :
    (generateResponse fmt false true rand1 (GatewayOutcome.ok t) s1 ip1 now1 st).outcome
        = GenOutcome.returned (fmt t)
    ∧ (generateResponse fmt false genAIOk2 rand2 gw2 s2 ip2 now2
          (generateResponse fmt false true rand1 (GatewayOutcome.ok t) s1 ip1 now1 st).state).outcome
        = GenOutcome.returned (fmt t)
    ∧ (generateResponse fmt false genAIOk2 rand2 gw2 s2 ip2 now2
          (generateResponse fmt false true rand1 (GatewayOutcome.ok t) s1 ip1 now1 st).state).gatewayCalled
        = false := by
  obtain ⟨h1, hcache⟩ := gen_success_trace fmt rand1 t s1 ip1 now1 st hrl1 hmiss ht
  have hhit : cacheLookup
      (generateResponse fmt false true rand1 (GatewayOutcome.ok t) s1 ip1 now1 st).state.cache
      s2 now2 = some (fmt t) := by
    simp only [cacheLookup, hcache, ← hnorm, mapGet_cacheStore_self]
    rw [if_pos (by exact hfresh)]
  obtain ⟨h2, h3⟩ := gen_cache_hit fmt genAIOk2 rand2 gw2 s2 ip2 now2
    (generateResponse fmt false true rand1 (GatewayOutcome.ok t) s1 ip1 now1 st).state
    (fmt t) hrl2 hhit
  exact ⟨h1, h2, h3⟩

/-- Witness for C5: the scenario from the spec, with "Hello" completing and
"  hello  " repeated 10 s later being served from the cache. -/
theorem normalized_messages_share_cache_entry_witness :
    (generateResponse (fun s => s) false true 0 (GatewayOutcome.ok "Hi there.") "Hello" none 0
        { rateMap := [], cache := [] }).outcome
      = GenOutcome.returned "Hi there."
    ∧ (generateResponse (fun s => s) false true 1 (GatewayOutcome.err "down") "  hello  " none 10000
          (generateResponse (fun s => s) false true 0 (GatewayOutcome.ok "Hi there.") "Hello" none 0
            { rateMap := [], cache := [] }).state).outcome
      = GenOutcome.returned "Hi there."
    ∧ (generateResponse (fun s => s) false true 1 (GatewayOutcome.err "down") "  hello  " none 10000
          (generateResponse (fun s => s) false true 0 (GatewayOutcome.ok "Hi there.") "Hello" none 0
            { rateMap := [], cache := [] }).state).gatewayCalled
      = false :=
  normalized_messages_share_cache_entry (fun s => s) 0 1 true "Hi there."
    (GatewayOutcome.err "down") "Hello" "  hello  " none none 0 10000
    { rateMap := [], cache := [] }
    (by decide) (by decide) (by decide) (by decide) (by decide) (by decide)

/-! ## Bounded-growth analysis of the cache (claim about lines 170–178) -/

/-- Distinct keys for exercising the cache: `n` repetitions of `a`. -/
def natKey (n : Nat) : String := String.mk (List.replicate n 'a')

theorem natKey_injective : Function.Injective natKey := by
  intro m n h
  have hlen := congrArg (fun s => s.data.length) h
  simpa [natKey] using hlen

/-- Run `cacheStore` once per key, in order, against an initial cache. -/
def storeMany (now : Int) (v : String) (keys : List String) (c : CacheMap) : CacheMap :=
  keys.foldl (fun acc k => cacheStore now k v acc) c

/-- Storing a brand-new key into an all-fresh cache appends the entry: the
opportunistic sweep removes nothing because nothing is expired. -/
theorem cacheStore_fresh_append (now : Int) (k v : String) (c : CacheMap)
    (hk : k ∉ keysOf c)
    (hfresh : ∀ kv ∈ c, now - kv.2.timestamp ≤ CACHE_TTL) :
    cacheStore now k v c = c ++ [(k, { response := v, timestamp := now })] := by
  have hset : mapSet c k { response := v, timestamp := now }
      = c ++ [(k, { response := v, timestamp := now })] := mapSet_of_not_mem c k _ hk
  have hall : ∀ kv ∈ mapSet c k { response := v, timestamp := now },
      decide (now - kv.2.timestamp ≤ CACHE_TTL) = true := by
    intro kv hkv
    rw [hset] at hkv
    rcases List.mem_append.mp hkv with hkv | hkv
    · simp only [decide_eq_true_eq]
      exact hfresh kv hkv
    · simp only [List.mem_singleton] at hkv
      subst hkv
      simp only [decide_eq_true_eq, CACHE_TTL]
      omega
  simp only [cacheStore]
  by_cases h : 1000 < (mapSet c k { response := v, timestamp := now }).length
  · rw [if_pos h, filter_id_of_all _ _ hall, hset]
  · rw [if_neg h, hset]

/-- Storing a list of pairwise-distinct fresh keys, none already present, into
an all-fresh cache grows it by exactly one entry per key. -/
theorem storeMany_fresh_length (now : Int) (v : String) :
    ∀ (keys : List String) (c : CacheMap), keys.Nodup →
      (∀ k ∈ keys, k ∉ keysOf c) →
      (∀ kv ∈ c, now - kv.2.timestamp ≤ CACHE_TTL) →
      (storeMany now v keys c).length = c.length + keys.length := by
  intro keys
  induction keys with
  | nil => intro c _ _ _; simp [storeMany]
  | cons k ks ih =>
    intro c hnd hnew hfresh
    have hk : k ∉ keysOf c := hnew k (by simp)
    have happ := cacheStore_fresh_append now k v c hk hfresh
    have hstep : storeMany now v (k :: ks) c
        = storeMany now v ks (cacheStore now k v c) := rfl
    rw [hstep, happ]
    have hnd2 : ks.Nodup := (List.nodup_cons.mp hnd).2
    have hnew2 : ∀ k2 ∈ ks, k2 ∉ keysOf (c ++ [(k, { response := v, timestamp := now })]) := by
      intro k2 hk2
      simp only [keysOf, List.map_append, List.mem_append, List.map_cons, List.map_nil,
        List.mem_singleton, List.mem_cons, List.not_mem_nil, or_false]
      push_neg
      refine ⟨fun hmem => hnew k2 (by simp [hk2]) hmem, fun he => ?_⟩
      exact (List.nodup_cons.mp hnd).1 (he ▸ hk2)
    have hfresh2 : ∀ kv ∈ c ++ [(k, { response := v, timestamp := now })],
        now - kv.2.timestamp ≤ CACHE_TTL := by
      intro kv hkv
      rcases List.mem_append.mp hkv with hkv | hkv
      · exact hfresh kv hkv
      · simp only [List.mem_singleton] at hkv
        subst hkv
        simp only [CACHE_TTL]
        omega
    rw [ih (c ++ [(k, ({ response := v, timestamp := now } : CacheEntry))]) hnd2 hnew2 hfresh2]
    simp only [List.length_append, List.length_cons, List.length_nil]
    omega

/-- Counterexample to C6 as stated: 1001 successful completions of distinct,
still-unexpired messages leave 1001 entries in `responseCache` — the store
step does not cap the map at 1000 entries. -/
theorem cache_cap_counterexample :
    1000 < (storeMany 0 "v" ((List.range 1001).map natKey) []).length := by
  have hnd : ((List.range 1001).map natKey).Nodup :=
    (List.nodup_range 1001).map (fun a b => fun h => natKey_injective h)
  have hlen := storeMany_fresh_length 0 "v" ((List.range 1001).map natKey) []
    hnd (by simp [keysOf]) (by simp)
  rw [hlen]
  simp

/-- C6 amended: after a store, either the cache has at most 1000 entries, or
every entry that remains is unexpired — the sweep that runs past the 1000
mark evicts exactly the expired entries, so only fresh entries can push the
count beyond 1000. -/
theorem cache_sweep_only_expired (now : Int) (k v : String) (c : CacheMap) :
    (cacheStore now k v c).length ≤ 1000
    ∨ ∀ kv ∈ cacheStore now k v c, now - kv.2.timestamp ≤ CACHE_TTL := by
  by_cases h : 1000 < (mapSet c k { response := v, timestamp := now }).length
  · right
    intro kv hkv
    simp only [cacheStore, if_pos h] at hkv
    have := List.of_mem_filter hkv
    simpa using this
  · left
    simp only [cacheStore, if_neg h]
    omega

/-- Witness instantiating the amended C6 at a concrete store. -/
theorem cache_sweep_only_expired_witness :
    (cacheStore 0 "k" "v" []).length ≤ 1000
    ∨ ∀ kv ∈ cacheStore 0 "k" "v" [], (0 : Int) - kv.2.timestamp ≤ CACHE_TTL :=
  cache_sweep_only_expired 0 "k" "v" []

/-! ## `POST` handler (`src/app/api/chat/route.ts`) -/

/-- `AI_RESPONSE_TIMEOUT = 10000` ms. -/
def AI_RESPONSE_TIMEOUT : Nat := 10000

/-- The `message` field of a parsed JSON body: absent, a string, or some
non-string JSON value (whose JS truthiness is recorded, though both truthy and
falsy non-strings are rejected by the handler). -/
inductive MsgField where
  | absent
  | strVal (s : String)
  | nonStr (truthy : Bool)
  deriving DecidableEq

/-- The guard `!body || !body.message || typeof body.message !== 'string'`:
the request passes validation exactly when a non-empty string message is
present (`""` is falsy, non-strings fail the `typeof` test). -/
def validMessage : Option MsgField → Option String
  | some (MsgField.strVal s) => if s = "" then none else some s
  | _ => none

/-- An HTTP response of the handler: the status code together with the
`response` (on 200) or `error` (otherwise) field of the JSON payload. -/
structure HttpResp where
  status : Nat
  body : String
  deriving DecidableEq

/-- The `catch` block of `POST` (lines 95–121): classify the caught error
message into an HTTP status and a user-friendly error string. -/
def routeErrorResp (m : String) : HttpResp :=
  if strIncludes m "timeout" = true then
    { status := 504, body := "AI service is taking too long to respond. Please try again." }
  else if strIncludes m "Rate limit" = true then
    { status := 429, body := "Too many requests. Please wait a moment before trying again." }
  else
    { status := 500, body := "Failed to generate response. Please try again." }

/-- One evaluation of the `POST` handler: the HTTP response, the module state
afterwards, and which effects ran. -/
structure PostResult where
  resp : HttpResp
  finalState : GenState
  gatewayCalled : Bool
  cacheRead : Bool
  persistenceAttempted : Bool
  deriving DecidableEq

/-- The `POST` handler.  `genDuration` is how long the `generateResponse`
promise takes to settle, raced against the `AI_RESPONSE_TIMEOUT` timer: when
it exceeds the timer the handler takes the catch path with the
`"AI response timeout"` rejection (the background call still settles, so its
state effects remain).  `persistOk` is whether the awaited `storeChatMessage`
succeeds; on failure it logs and re-throws
`"Failed to save chat message to the database."`, which the outer catch maps
through `routeErrorResp`. -/
def POST (fmt : String → String) (isBuildRoute isBuildGemini genAIOk : Bool)
    (rand : Nat) (gw : GatewayOutcome) (genDuration : Nat) (persistOk : Bool)
    (body : Option MsgField) (clientIp : String) (now : Int) (st : GenState) : PostResult :=
  match validMessage body with
  | none =>
    { resp := { status := 400, body := "Message must be a non-empty string" },
      finalState := st, gatewayCalled := false, cacheRead := false,
      persistenceAttempted := false }
  | some message =>
    let tr := generateResponse fmt isBuildGemini genAIOk rand gw message (some clientIp) now st
    if AI_RESPONSE_TIMEOUT < genDuration then
      { resp := routeErrorResp "AI response timeout", finalState := tr.state,
        gatewayCalled := tr.gatewayCalled, cacheRead := tr.cacheRead,
        persistenceAttempted := false }
    else
      match tr.outcome with
      | GenOutcome.thrown m =>
        { resp := routeErrorResp m, finalState := tr.state,
          gatewayCalled := tr.gatewayCalled, cacheRead := tr.cacheRead,
          persistenceAttempted := false }
      | GenOutcome.returned r =>
        if isBuildRoute = true then
          { resp := { status := 200, body := r }, finalState := tr.state,
            gatewayCalled := tr.gatewayCalled, cacheRead := tr.cacheRead,
            persistenceAttempted := false }
        else if persistOk = true then
          { resp := { status := 200, body := r }, finalState := tr.state,
            gatewayCalled := tr.gatewayCalled, cacheRead := tr.cacheRead,
            persistenceAttempted := true }
        else
          { resp := routeErrorResp "Failed to save chat message to the database.",
            finalState := tr.state, gatewayCalled := tr.gatewayCalled,
            cacheRead := tr.cacheRead, persistenceAttempted := true }

example :
    (POST (fun s => s) false false true 0 (GatewayOutcome.ok "four.") 50 true
      (some (MsgField.strVal "hi")) "1.2.3.4" 0 { rateMap := [], cache := [] }).resp
    = { status := 200, body := "four." } := by decide

/-- C7: when the gateway call outlasts the 10000 ms timer, the race resolves
to the timeout branch and the handler answers 504 — for every gateway oracle,
i.e. regardless of whether the call would eventually have succeeded. -/
theorem gateway_timeout_yields_504 (fmt : String → String)
    (isBuildRoute isBuildGemini genAIOk : Bool) (rand : Nat) (gw : GatewayOutcome)
    (genDuration : Nat) (persistOk : Bool) (body : Option MsgField)
    (clientIp : String) (now : Int) (st : GenState) (s : String)
    (hbody : validMessage body = some s)
    (hdur : AI_RESPONSE_TIMEOUT < genDuration) :
    (POST fmt isBuildRoute isBuildGemini genAIOk rand gw genDuration persistOk
        body clientIp now st).resp.status = 504 := by
  unfold POST
  rw [hbody]
  simp only [if_pos hdur]
  rfl

/-- Witness for C7: a concrete request whose gateway call takes 10001 ms and
would have succeeded still gets a 504. -/
theorem gateway_timeout_yields_504_witness :
    (POST (fun s => s) false false true 0 (GatewayOutcome.ok "four.") 10001 true
        (some (MsgField.strVal "hi")) "1.2.3.4" 0 { rateMap := [], cache := [] }).resp.status
      = 504 :=
  gateway_timeout_yields_504 (fun s => s) false false true 0 (GatewayOutcome.ok "four.")
    10001 true (some (MsgField.strVal "hi")) "1.2.3.4" 0 { rateMap := [], cache := [] }
    "hi" (by decide) (by decide)

/-- C8: a body with the message field absent, a non-string, or the empty
string (or no body at all) is answered 400 with no rate-limiter or cache
state consulted or mutated and no persistence attempted. -/
theorem invalid_message_yields_400 (fmt : String → String)
    (isBuildRoute isBuildGemini genAIOk : Bool) (rand : Nat) (gw : GatewayOutcome)
    (genDuration : Nat) (persistOk : Bool) (body : Option MsgField)
    (clientIp : String) (now : Int) (st : GenState)
    (hbad : body = none ∨ body = some MsgField.absent
      ∨ (∃ tr, body = some (MsgField.nonStr tr)) ∨ body = some (MsgField.strVal "")) :
    (POST fmt isBuildRoute isBuildGemini genAIOk rand gw genDuration persistOk
        body clientIp now st).resp.status = 400
    ∧ (POST fmt isBuildRoute isBuildGemini genAIOk rand gw genDuration persistOk
        body clientIp now st).finalState = st
    ∧ (POST fmt isBuildRoute isBuildGemini genAIOk rand gw genDuration persistOk
        body clientIp now st).cacheRead = false
    ∧ (POST fmt isBuildRoute isBuildGemini genAIOk rand gw genDuration persistOk
        body clientIp now st).gatewayCalled = false
    ∧ (POST fmt isBuildRoute isBuildGemini genAIOk rand gw genDuration persistOk
        body clientIp now st).persistenceAttempted = false := by
  have hval : validMessage body = none := by
    rcases hbad with h | h | ⟨tr, h⟩ | h <;> subst h <;> rfl
  unfold POST
  rw [hval]
  exact ⟨rfl, rfl, rfl, rfl, rfl⟩

/-- Witness for C8: the empty-string message gets a 400 and touches nothing. -/
theorem invalid_message_yields_400_witness :
    (POST (fun s => s) false false true 0 (GatewayOutcome.ok "four.") 0 true
        (some (MsgField.strVal "")) "1.2.3.4" 0 { rateMap := [], cache := [] }).resp.status = 400
    ∧ (POST (fun s => s) false false true 0 (GatewayOutcome.ok "four.") 0 true
        (some (MsgField.strVal "")) "1.2.3.4" 0 { rateMap := [], cache := [] }).finalState
      = { rateMap := [], cache := [] }
    ∧ (POST (fun s => s) false false true 0 (GatewayOutcome.ok "four.") 0 true
        (some (MsgField.strVal "")) "1.2.3.4" 0 { rateMap := [], cache := [] }).cacheRead = false
    ∧ (POST (fun s => s) false false true 0 (GatewayOutcome.ok "four.") 0 true
        (some (MsgField.strVal "")) "1.2.3.4" 0 { rateMap := [], cache := [] }).gatewayCalled = false
    ∧ (POST (fun s => s) false false true 0 (GatewayOutcome.ok "four.") 0 true
        (some (MsgField.strVal "")) "1.2.3.4" 0 { rateMap := [], cache := [] }).persistenceAttempted
      = false :=
  invalid_message_yields_400 (fun s => s) false false true 0 (GatewayOutcome.ok "four.") 0 true
    (some (MsgField.strVal "")) "1.2.3.4" 0 { rateMap := [], cache := [] }
    (Or.inr (Or.inr (Or.inr rfl)))

/-- C2 (code bug): on a valid request whose completion succeeds but whose
MongoDB insert fails, the handler answers 500, not the claimed 200 — `POST`
awaits `storeChatMessage`, which catches, logs, and re-throws, so the outer
catch converts the persistence failure into an error response.  (The
`storeChatMessage` comment speaks of a non-blocking `.catch()` in the handler,
which does not exist; an earlier revision of the route did call
`storeChatMessage(...).catch(console.error)`.) -/
theorem persistence_failure_returns_500 :
    (POST (fun s => s) false false true 0 (GatewayOutcome.ok "The answer is 4.") 50 false
        (some (MsgField.strVal "hi")) "1.2.3.4" 0 { rateMap := [], cache := [] }).resp
      = { status := 500, body := "Failed to generate response. Please try again." }
    ∧ (POST (fun s => s) false false true 0 (GatewayOutcome.ok "The answer is 4.") 50 false
        (some (MsgField.strVal "hi")) "1.2.3.4" 0 { rateMap := [], cache := [] }).persistenceAttempted
      = true := by
  constructor
  · decide
  · decide
